import Mathlib

/-!
Verification of the Tracer solar charger Modbus RTU protocol engine.

This file is a shallow embedding, in Lean 4, of the protocol core of the
TracerSolarCharger repository:

* `src/src/communication/modbus_client.py` (class `ModbusRTUClient`):
  CRC16 computation, request framing, response parsing, error decoding,
  register-block reads, and the single/multiple register write frames.
* `src/homeassistant/custom_components/tracer_solar_charger/modbus_client.py`
  (class `TracerModbusClient`): its `calculate_crc16`,
  `create_modbus_command` and `read_register_block` are byte-for-byte the
  same algorithms as in `ModbusRTUClient`, so one embedding covers both.
* `src/homeassistant/custom_components/tracer_solar_charger/sensor.py`
  (class `TracerSolarChargerSensor`): the `native_value` decode pipeline
  (32-bit combine, status/enum dispatch, scale, offset, rounding) and
  `_format_bitfield`, together with the bit tables of `const.py`.
* `src/src/models/device_data.py` (`DeviceDataManager`): snapshot assembly.
* `src/src/main.py` (`SolarChargerCLI.cmd_write`): the validated write path.

Conventions of the embedding:

* Python `bytes` values are `List Nat` with every element `< 256`.
* Python integers are `Nat` (all register and frame arithmetic in the
  source is on non-negative integers); where the source relies on a
  16-bit range this appears as an explicit hypothesis or a `% 2 ^ 16`.
* Python floats are modelled as exact rationals (`ℚ`); `round(x, 2)` is
  modelled as round-half-to-even at two decimal places, which is the
  behaviour of Python `round` on the exactly-representable values the
  register decode produces.
* Fallible functions return `Option` values, and functions whose Python
  original returns `None | dict` variants return a dedicated inductive.
* `datetime.now()` is modelled by passing the capture instant explicitly.
-/

/-! ## CRC16 engine

Embeds `ModbusRTUClient.calculate_crc16` (and the identical
`TracerModbusClient.calculate_crc16`): accumulator starts at 0xFFFF, each
byte is XORed into the low byte, followed by 8 shift/feedback rounds with
polynomial 0xA001; the result is packed little-endian (low byte first). -/

/-- One inner-loop round of `calculate_crc16`: if the low bit is set,
shift right and XOR with 0xA001, else just shift right. -/
def crcRound (c : Nat) : Nat :=
  if c &&& 1 = 1 then (c >>> 1) ^^^ 0xA001 else c >>> 1

/-- One iteration of the outer loop of `calculate_crc16`: XOR the byte
into the accumulator, then run 8 rounds. -/
def crcUpdateByte (c b : Nat) : Nat := crcRound^[8] (c ^^^ b)

/-- The accumulator value of `calculate_crc16` after the loop, starting
from 0xFFFF. -/
def crcAccum (data : List Nat) : Nat := data.foldl crcUpdateByte 0xFFFF

/-- `ModbusRTUClient.calculate_crc16`: the final accumulator packed as two
bytes, low byte first (`struct.pack` with little-endian unsigned short). -/
def calculate_crc16 (data : List Nat) : List Nat :=
  [crcAccum data % 256, crcAccum data / 256 % 256]

/-! ### Table-based reference CRC16

The canonical table-driven Modbus CRC16: a 256-entry table indexed by one
byte, with the per-byte update `crc = (crc >> 8) ^ table[(crc ^ byte) & 0xFF]`.
This is the reference implementation the spec requires `calculate_crc16`
to match bit-exactly. -/

/-- The 256-entry Modbus CRC16 lookup table: entry `b` is the result of
running the 8 shift/feedback rounds on the byte value `b`. -/
def crcTable : List Nat := (List.range 256).map (fun b => crcRound^[8] b)

/-- The per-byte update of the table-driven reference CRC16. -/
def crcTableStep (c b : Nat) : Nat :=
  (c >>> 8) ^^^ crcTable.getD ((c ^^^ b) &&& 0xFF) 0

/-- Accumulator of the table-driven reference CRC16, from 0xFFFF. -/
def crcTableAccum (data : List Nat) : Nat := data.foldl crcTableStep 0xFFFF

/-- The table-driven reference Modbus CRC16, packed low byte first. -/
def table_crc16 (data : List Nat) : List Nat :=
  [crcTableAccum data % 256, crcTableAccum data / 256 % 256]

/-! ### CRC equivalence lemmas -/

theorem xor_shiftRight_dist (a b n : Nat) :
    (a ^^^ b) >>> n = (a >>> n) ^^^ (b >>> n) := by
  apply Nat.eq_of_testBit_eq
  intro i
  simp [Nat.testBit_shiftRight, Nat.testBit_xor]

theorem crcRound_xor (x y : Nat) (h : y &&& 1 = 0) :
    crcRound (x ^^^ y) = crcRound x ^^^ (y >>> 1) := by
  unfold crcRound
  have hx : (x ^^^ y) &&& 1 = x &&& 1 := by
    rw [Nat.and_xor_distrib_right, h, Nat.xor_zero]
  rw [hx, xor_shiftRight_dist]
  by_cases hb : x &&& 1 = 1
  · rw [if_pos hb, if_pos hb, Nat.xor_assoc, Nat.xor_comm (y >>> 1) 0xA001,
      ← Nat.xor_assoc]
  · rw [if_neg hb, if_neg hb]

theorem crcRound_iterate_xor (n x h : Nat) :
    crcRound^[n] (x ^^^ (h <<< n)) = crcRound^[n] x ^^^ h := by
  induction n generalizing x with
  | zero => simp
  | succ n ih =>
    rw [Function.iterate_succ_apply, Function.iterate_succ_apply]
    have hsh : h <<< (n + 1) = (h <<< n) * 2 := by
      simp [Nat.shiftLeft_eq, Nat.pow_succ, Nat.mul_assoc]
    have h1 : (h <<< (n + 1)) &&& 1 = 0 := by
      rw [Nat.and_one_is_mod, hsh, Nat.mul_mod_left]
    have h2 : (h <<< (n + 1)) >>> 1 = h <<< n := by
      rw [hsh, Nat.shiftRight_eq_div_pow, pow_one, Nat.mul_div_cancel _ (by omega)]
    rw [crcRound_xor _ _ h1, h2, ih]

theorem low_high_xor (c : Nat) : (c &&& 0xFF) ^^^ ((c >>> 8) <<< 8) = c := by
  apply Nat.eq_of_testBit_eq
  intro i
  have h255 : (0xFF : Nat) = 2 ^ 8 - 1 := by norm_num
  rw [Nat.testBit_xor, Nat.testBit_and, h255, Nat.testBit_two_pow_sub_one,
    Nat.testBit_shiftLeft]
  by_cases hi : i < 8
  · simp [hi, Nat.not_le.mpr hi]
  · have h8 : i ≥ 8 := Nat.le_of_not_lt hi
    simp [hi, h8, Nat.testBit_shiftRight, Nat.add_sub_cancel' h8]

theorem crcRound8_split (c : Nat) :
    crcRound^[8] c = crcRound^[8] (c &&& 0xFF) ^^^ (c >>> 8) := by
  conv_lhs => rw [← low_high_xor c]
  exact crcRound_iterate_xor 8 (c &&& 0xFF) (c >>> 8)

theorem crcTable_getD (i : Nat) (h : i < 256) :
    crcTable.getD i 0 = crcRound^[8] i := by
  simp [crcTable, List.getD_eq_getElem?_getD, List.getElem?_map,
    List.getElem?_range h]

theorem and_ff_lt (x : Nat) : x &&& 0xFF < 256 := by
  have h255 : (0xFF : Nat) = 2 ^ 8 - 1 := by norm_num
  rw [h255, Nat.and_pow_two_sub_one_eq_mod]
  exact Nat.mod_lt _ (by norm_num)

theorem crcUpdateByte_eq_tableStep (c b : Nat) (hb : b < 256) :
    crcUpdateByte c b = crcTableStep c b := by
  unfold crcUpdateByte crcTableStep
  rw [crcTable_getD _ (and_ff_lt _), crcRound8_split (c ^^^ b)]
  have hb8 : b >>> 8 = 0 := by
    rw [Nat.shiftRight_eq_div_pow]
    omega
  rw [xor_shiftRight_dist, hb8, Nat.xor_zero, Nat.xor_comm]

theorem foldl_crc_eq (l : List Nat) (c : Nat) (h : ∀ b ∈ l, b < 256) :
    l.foldl crcUpdateByte c = l.foldl crcTableStep c := by
  induction l generalizing c with
  | nil => rfl
  | cons a t ih =>
    have ha : a < 256 := h a (List.mem_cons_self a t)
    have ht : ∀ b ∈ t, b < 256 := fun b hb => h b (List.mem_cons_of_mem a hb)
    rw [List.foldl_cons, List.foldl_cons, crcUpdateByte_eq_tableStep c a ha, ih _ ht]

/-- C1: for every byte sequence, `calculate_crc16` (accumulator 0xFFFF,
per byte XOR into the low byte then 8 rounds of shift / conditional XOR
with 0xA001, result emitted low byte first) is a pure function of the
input and its output equals the table-based reference Modbus RTU CRC16. -/
theorem calculate_crc16_eq_table (data : List Nat) (h : ∀ b ∈ data, b < 256) :
    calculate_crc16 data = table_crc16 data := by
  unfold calculate_crc16 table_crc16 crcAccum crcTableAccum
  rw [foldl_crc_eq data 0xFFFF h]

/-- Witness for C1: the equivalence evaluated on the concrete request
payload bytes 01 04 31 04 00 01 from the spec's test vector. -/
theorem calculate_crc16_eq_table_witness :
    calculate_crc16 [0x01, 0x04, 0x31, 0x04, 0x00, 0x01]
      = table_crc16 [0x01, 0x04, 0x31, 0x04, 0x00, 0x01] :=
  calculate_crc16_eq_table [0x01, 0x04, 0x31, 0x04, 0x00, 0x01] (by decide)

/-! ## Frame construction

Embeds `ModbusRTUClient.create_modbus_command`,
`write_single_register` (the frame it sends) and
`write_multiple_registers` (the frame it sends). The Python code packs
fields with big-endian format strings; the pack raises on out-of-range
fields, so the model totalises with `%` and the theorems carry the
corresponding range hypotheses. -/

/-- Big-endian 2-byte encoding of an unsigned-short field. -/
def toBE16 (v : Nat) : List Nat := [v / 256 % 256, v % 256]

/-- `ModbusRTUClient.create_modbus_command`: pack the slave id, the
function code, the start address and the register count big-endian, then
append the CRC16 of those six bytes. -/
def create_modbus_command (slave_id function_code start_addr num_registers : Nat) :
    List Nat :=
  let data := [slave_id % 256, function_code % 256]
    ++ toBE16 start_addr ++ toBE16 num_registers
  data ++ calculate_crc16 data

/-- The frame sent by `ModbusRTUClient.write_single_register`: function
code 0x06, address and value big-endian, trailing CRC16. -/
def write_single_register_frame (slave_id address value : Nat) : List Nat :=
  let data := [slave_id % 256, 0x06] ++ toBE16 address ++ toBE16 value
  data ++ calculate_crc16 data

/-- The frame sent by `ModbusRTUClient.write_multiple_registers`:
function code 0x10, start address and register count big-endian, a
one-byte byte count equal to twice the register count, the values
big-endian, trailing CRC16. -/
def write_multiple_registers_frame (slave_id start_addr : Nat) (values : List Nat) :
    List Nat :=
  let header := [slave_id % 256, 0x10] ++ toBE16 start_addr
    ++ toBE16 values.length ++ [values.length * 2 % 256]
  let data := header ++ (values.map toBE16).flatten
  data ++ calculate_crc16 data

theorem mod256_eq_and (v : Nat) : v % 256 = v &&& 0xFF := by
  have h255 : (0xFF : Nat) = 2 ^ 8 - 1 := by norm_num
  rw [h255, Nat.and_pow_two_sub_one_eq_mod]

theorem hi_byte_eq_shift (v : Nat) (h : v < 65536) : v / 256 % 256 = v >>> 8 := by
  rw [Nat.shiftRight_eq_div_pow]
  norm_num
  omega

theorem toBE16_eq (v : Nat) (h : v < 65536) : toBE16 v = [v >>> 8, v &&& 0xFF] := by
  rw [toBE16, hi_byte_eq_shift v h, mod256_eq_and]

/-- C2: the read-request frame is exactly the slave id, the function
code, the start address big-endian, the register count big-endian, and
the little-endian CRC16 of those six bytes, eight bytes in all; the
write-single (0x06) and write-multiple (0x10, byte count = 2 x register
count) frames follow the analogous big-endian layouts with the same
trailing little-endian CRC. -/
theorem frame_layouts (slave_id function_code start_addr num_registers value : Nat)
    (values : List Nat)
    (hs : slave_id < 256) (hf : function_code < 256)
    (ha : start_addr < 65536) (hn : num_registers < 65536)
    (hv : value < 65536) (hlen : values.length * 2 < 256)
    (hvals : ∀ v ∈ values, v < 65536) :
    create_modbus_command slave_id function_code start_addr num_registers
      = [slave_id, function_code, start_addr >>> 8, start_addr &&& 0xFF,
          num_registers >>> 8, num_registers &&& 0xFF]
        ++ calculate_crc16 [slave_id, function_code, start_addr >>> 8,
          start_addr &&& 0xFF, num_registers >>> 8, num_registers &&& 0xFF]
    ∧ (create_modbus_command slave_id function_code start_addr num_registers).length = 8
    ∧ write_single_register_frame slave_id start_addr value
        = [slave_id, 0x06, start_addr >>> 8, start_addr &&& 0xFF,
            value >>> 8, value &&& 0xFF]
          ++ calculate_crc16 [slave_id, 0x06, start_addr >>> 8, start_addr &&& 0xFF,
            value >>> 8, value &&& 0xFF]
    ∧ write_multiple_registers_frame slave_id start_addr values
        = ([slave_id, 0x10, start_addr >>> 8, start_addr &&& 0xFF,
            values.length >>> 8, values.length &&& 0xFF, 2 * values.length]
          ++ (values.map (fun v => [v >>> 8, v &&& 0xFF])).flatten)
          ++ calculate_crc16 ([slave_id, 0x10, start_addr >>> 8, start_addr &&& 0xFF,
            values.length >>> 8, values.length &&& 0xFF, 2 * values.length]
          ++ (values.map (fun v => [v >>> 8, v &&& 0xFF])).flatten) := by
  have hs' : slave_id % 256 = slave_id := Nat.mod_eq_of_lt hs
  have hf' : function_code % 256 = function_code := Nat.mod_eq_of_lt hf
  have hbc : values.length * 2 % 256 = 2 * values.length := by
    rw [Nat.mod_eq_of_lt hlen, Nat.mul_comm]
  have hlen16 : values.length < 65536 := by omega
  have hmap : values.map toBE16 = values.map (fun v => [v >>> 8, v &&& 0xFF]) := by
    apply List.map_congr_left
    intro v hv'
    exact toBE16_eq v (hvals v hv')
  refine ⟨?_, ?_, ?_, ?_⟩
  · rw [create_modbus_command, toBE16_eq _ ha, toBE16_eq _ hn, hs', hf']
    rfl
  · rw [create_modbus_command]
    simp [calculate_crc16, toBE16]
  · rw [write_single_register_frame, toBE16_eq _ ha, toBE16_eq _ hv, hs']
    rfl
  · rw [write_multiple_registers_frame, toBE16_eq _ ha, toBE16_eq _ hlen16,
      hs', hbc, hmap]
    simp [List.append_assoc]

/-- Witness for C2: the three layouts evaluated at slave 1, function
code 4, address 0x3104, count 1, value 2456, values [2, 3]. -/
theorem frame_layouts_witness :
    create_modbus_command 1 4 0x3104 1
      = [1, 4, 0x3104 >>> 8, 0x3104 &&& 0xFF, 1 >>> 8, 1 &&& 0xFF]
        ++ calculate_crc16 [1, 4, 0x3104 >>> 8, 0x3104 &&& 0xFF, 1 >>> 8, 1 &&& 0xFF]
    ∧ (create_modbus_command 1 4 0x3104 1).length = 8
    ∧ write_single_register_frame 1 0x3104 2456
        = [1, 0x06, 0x3104 >>> 8, 0x3104 &&& 0xFF, 2456 >>> 8, 2456 &&& 0xFF]
          ++ calculate_crc16 [1, 0x06, 0x3104 >>> 8, 0x3104 &&& 0xFF,
            2456 >>> 8, 2456 &&& 0xFF]
    ∧ write_multiple_registers_frame 1 0x3104 [2, 3]
        = ([1, 0x10, 0x3104 >>> 8, 0x3104 &&& 0xFF,
            ([2, 3] : List Nat).length >>> 8, ([2, 3] : List Nat).length &&& 0xFF,
            2 * ([2, 3] : List Nat).length]
          ++ (([2, 3] : List Nat).map (fun v => [v >>> 8, v &&& 0xFF])).flatten)
          ++ calculate_crc16 ([1, 0x10, 0x3104 >>> 8, 0x3104 &&& 0xFF,
            ([2, 3] : List Nat).length >>> 8, ([2, 3] : List Nat).length &&& 0xFF,
            2 * ([2, 3] : List Nat).length]
          ++ (([2, 3] : List Nat).map (fun v => [v >>> 8, v &&& 0xFF])).flatten) :=
  frame_layouts 1 4 0x3104 1 2456 [2, 3] (by decide) (by decide) (by decide)
    (by decide) (by decide) (by decide) (by decide)

/-! ## Response parsing

Embeds `ModbusRTUClient.parse_modbus_response` and
`ModbusRTUClient.get_error_message`. The Python function returns `None`
for responses shorter than 5 bytes, an error dict when the high bit of
the function code is set, a registers dict for read function codes, and
a raw dict otherwise; the four shapes become the four constructors of
`ParsedResponse`. -/

/-- The four result shapes of `parse_modbus_response`. -/
inductive ParsedResponse where
  | short : ParsedResponse
  | failure (slave_id function_code error_code : Nat) (error_message : String) :
      ParsedResponse
  | success (slave_id function_code byte_count : Nat) (registers : List Nat) :
      ParsedResponse
  | other (response : List Nat) : ParsedResponse
  deriving DecidableEq

/-- `ModbusRTUClient.get_error_message`: the fixed exception-code table
with the formatted default for unknown codes. -/
def get_error_message (error_code : Nat) : String :=
  if error_code = 1 then "Illegal Function"
  else if error_code = 2 then "Illegal Data Address"
  else if error_code = 3 then "Illegal Data Value"
  else if error_code = 4 then "Slave Device Failure"
  else if error_code = 5 then "Acknowledge"
  else if error_code = 6 then "Slave Device Busy"
  else if error_code = 8 then "Memory Parity Error"
  else "Unknown Error (" ++ toString error_code ++ ")"

/-- The register-decoding loop of `parse_modbus_response`: consume the
data two bytes at a time as big-endian 16-bit values; a trailing odd
byte fails the `i + 1 < len(data)` guard and is dropped. -/
def parseRegisters : List Nat → List Nat
  | a :: b :: rest => (a * 256 + b) :: parseRegisters rest
  | _ => []

/-- `ModbusRTUClient.parse_modbus_response`. The data slice
`response[3:3+byte_count]` is `(response.drop 3).take byte_count`. -/
def parse_modbus_response (response : List Nat) : ParsedResponse :=
  if response.length < 5 then .short
  else
    let slave_id := response.getD 0 0
    let function_code := response.getD 1 0
    if function_code &&& 0x80 ≠ 0 then
      let error_code := response.getD 2 0
      .failure slave_id (function_code &&& 0x7F) error_code
        (get_error_message error_code)
    else if function_code = 0x03 ∨ function_code = 0x04 then
      let byte_count := response.getD 2 0
      .success slave_id function_code byte_count
        (parseRegisters ((response.drop 3).take byte_count))
    else .other response

/-- The recursive register loop agrees with the direct indexed reading:
register `i` is the big-endian pair at offsets `2 i`, `2 i + 1`, and a
trailing odd byte contributes nothing. -/
theorem parseRegisters_eq_range :
    ∀ l : List Nat, parseRegisters l =
      (List.range (l.length / 2)).map
        (fun i => l.getD (2 * i) 0 * 256 + l.getD (2 * i + 1) 0)
  | [] => by simp [parseRegisters]
  | [a] => by simp [parseRegisters]
  | a :: b :: rest => by
    have ih := parseRegisters_eq_range rest
    show (a * 256 + b) :: parseRegisters rest = _
    rw [ih]
    have hlen : (a :: b :: rest).length / 2 = rest.length / 2 + 1 := by
      simp only [List.length_cons]
      omega
    rw [hlen, List.range_succ_eq_map, List.map_cons, List.map_map]
    congr 1

/-- C3: a response of at least 5 bytes whose function-code byte has bit
0x80 clear and equals 0x03 or 0x04 parses to a success carrying the
third byte as byte count and the big-endian 16-bit values of the
following bytes, one per two bytes, a trailing odd byte dropped; in
particular 01 04 02 09 98 followed by the CRC decodes to [2456]. -/
theorem parse_read_response (resp : List Nat)
    (h5 : 5 ≤ resp.length)
    (hok : resp.getD 1 0 &&& 0x80 = 0)
    (hfc : resp.getD 1 0 = 0x03 ∨ resp.getD 1 0 = 0x04) :
    parse_modbus_response resp =
      .success (resp.getD 0 0) (resp.getD 1 0) (resp.getD 2 0)
        ((List.range (((resp.drop 3).take (resp.getD 2 0)).length / 2)).map
          (fun i => ((resp.drop 3).take (resp.getD 2 0)).getD (2 * i) 0 * 256
            + ((resp.drop 3).take (resp.getD 2 0)).getD (2 * i + 1) 0))
    ∧ parse_modbus_response ([0x01, 0x04, 0x02, 0x09, 0x98]
        ++ calculate_crc16 [0x01, 0x04, 0x02, 0x09, 0x98])
      = .success 1 4 2 [2456] := by
  constructor
  · have hlt : ¬ resp.length < 5 := by omega
    have herr : ¬ (resp.getD 1 0 &&& 0x80 ≠ 0) := fun h => h hok
    rw [parse_modbus_response, if_neg hlt]
    simp only []
    rw [if_neg herr, if_pos hfc, parseRegisters_eq_range]
  · decide

/-- Witness for C3: the synthetic response for one input register at
0x3104 with value 2456 parses to exactly that register list. -/
theorem parse_read_response_witness :
    parse_modbus_response ([0x01, 0x04, 0x02, 0x09, 0x98]
        ++ calculate_crc16 [0x01, 0x04, 0x02, 0x09, 0x98])
      = .success 1 4 2 [2456] := by
  have h := (parse_read_response ([0x01, 0x04, 0x02, 0x09, 0x98]
      ++ calculate_crc16 [0x01, 0x04, 0x02, 0x09, 0x98])
    (by decide) (by decide) (by decide)).1
  rw [h]
  decide

/-- C4: a response of at least 5 bytes whose function-code byte has bit
0x80 set parses to an error result (never a success) carrying the third
byte as exception code, with the message given by the fixed mapping and
the formatted default for any other code. -/
theorem parse_error_response (resp : List Nat)
    (h5 : 5 ≤ resp.length)
    (herr : resp.getD 1 0 &&& 0x80 ≠ 0) :
    parse_modbus_response resp =
      .failure (resp.getD 0 0) (resp.getD 1 0 &&& 0x7F) (resp.getD 2 0)
        (get_error_message (resp.getD 2 0))
    ∧ (∀ s f b r, parse_modbus_response resp ≠ .success s f b r)
    ∧ get_error_message 1 = "Illegal Function"
    ∧ get_error_message 2 = "Illegal Data Address"
    ∧ get_error_message 3 = "Illegal Data Value"
    ∧ get_error_message 4 = "Slave Device Failure"
    ∧ get_error_message 5 = "Acknowledge"
    ∧ get_error_message 6 = "Slave Device Busy"
    ∧ get_error_message 8 = "Memory Parity Error"
    ∧ (∀ c, c ≠ 1 → c ≠ 2 → c ≠ 3 → c ≠ 4 → c ≠ 5 → c ≠ 6 → c ≠ 8 →
        get_error_message c = "Unknown Error (" ++ toString c ++ ")") := by
  have hlt : ¬ resp.length < 5 := by omega
  have hmain : parse_modbus_response resp =
      .failure (resp.getD 0 0) (resp.getD 1 0 &&& 0x7F) (resp.getD 2 0)
        (get_error_message (resp.getD 2 0)) := by
    rw [parse_modbus_response, if_neg hlt]
    simp only []
    rw [if_pos herr]
  refine ⟨hmain, ?_, rfl, rfl, rfl, rfl, rfl, rfl, rfl, ?_⟩
  · intro s f b r
    rw [hmain]
    intro hcontra
    exact ParsedResponse.noConfusion hcontra
  · intro c h1 h2 h3 h4 h5' h6 h8
    rw [get_error_message, if_neg h1, if_neg h2, if_neg h3, if_neg h4,
      if_neg h5', if_neg h6, if_neg h8]

/-- Witness for C4: a device NACK with exception code 2 surfaces as
Illegal Data Address. -/
theorem parse_error_response_witness :
    parse_modbus_response ([0x01, 0x84, 0x02] ++ calculate_crc16 [0x01, 0x84, 0x02])
      = .failure 1 4 2 "Illegal Data Address" := by
  have h := (parse_error_response ([0x01, 0x84, 0x02]
      ++ calculate_crc16 [0x01, 0x84, 0x02]) (by decide) (by decide)).1
  rw [h]
  decide

/-! ## Register block reads

Embeds `ModbusRTUClient.read_register_block` (and the identical
`TracerModbusClient.read_register_block`) as a function of the result of
the underlying `read_holding_registers` / `read_input_registers` call.
On a truthy value (a non-`None`, non-empty list) it builds the dict
mapping `start_addr + i` to `values[i]`; Python's `if values:` treats
both `None` and the empty list as falsy, giving `None`. The dict
comprehension is modelled as an association list in insertion order. -/

/-- `ModbusRTUClient.read_register_block`, given the underlying read
result. -/
def read_register_block (start_addr : Nat) (values : Option (List Nat)) :
    Option (List (Nat × Nat)) :=
  match values with
  | none => none
  | some vs =>
    if vs = [] then none
    else some ((List.range vs.length).map (fun i => (start_addr + i, vs.getD i 0)))

theorem map_getD_range (vs : List Nat) :
    (List.range vs.length).map (fun i => vs.getD i 0) = vs := by
  apply List.ext_getElem
  · simp
  · intro i h1 h2
    simp only [List.getElem_map, List.getElem_range]
    exact List.getD_eq_getElem vs 0 h2

/-- C10: when the underlying read succeeds with a non-empty list of
values, `read_register_block` returns exactly the mapping from
consecutive addresses `start_addr + i` to `values[i]`; on a failed read
or an empty list it returns `None`, never an empty mapping, so every
returned mapping is non-empty with contiguous keys from `start_addr`. -/
theorem read_register_block_spec (start_addr : Nat) (values : Option (List Nat)) :
    (∀ vs, values = some vs → vs ≠ [] →
      read_register_block start_addr values
        = some ((List.range vs.length).map (fun i => (start_addr + i, vs.getD i 0))))
    ∧ (values = none ∨ values = some [] →
        read_register_block start_addr values = none)
    ∧ (∀ m, read_register_block start_addr values = some m →
        m ≠ [] ∧ m.map Prod.fst = List.range' start_addr m.length 1
          ∧ ∀ vs, values = some vs → m.map Prod.snd = vs) := by
  refine ⟨?_, ?_, ?_⟩
  · intro vs hv hne
    rw [hv, read_register_block, if_neg hne]
  · rintro (hv | hv) <;> rw [hv, read_register_block]
    rw [if_pos rfl]
  · intro m hm
    match hv : values with
    | none => simp [read_register_block] at hm
    | some vs =>
      rw [read_register_block] at hm
      by_cases hne : vs = []
      · rw [if_pos hne] at hm; exact absurd hm (by simp)
      · rw [if_neg hne] at hm
        have hm' : m = (List.range vs.length).map
            (fun i => (start_addr + i, vs.getD i 0)) := by
          injection hm with h
          exact h.symm
        subst hm'
        refine ⟨?_, ?_, ?_⟩
        · simp only [ne_eq, List.map_eq_nil_iff, List.range_eq_nil]
          intro hlen
          exact hne (List.eq_nil_of_length_eq_zero hlen)
        · rw [List.map_map]
          simp only [List.length_map, List.length_range]
          rw [List.range'_eq_map_range]
          apply List.map_congr_left
          intro i _
          rfl
        · intro vs' hvs'
          injection hvs' with h
          subst h
          rw [List.map_map]
          exact map_getD_range vs
/-- Witness for C10: a concrete successful two-register read, a failed
read and an empty read. -/
theorem read_register_block_spec_witness :
    read_register_block 0x3100 (some [10, 20]) = some [(0x3100, 10), (0x3101, 20)]
    ∧ read_register_block 0x3100 none = none
    ∧ read_register_block 0x3100 (some []) = none := by
  refine ⟨?_, ?_, ?_⟩
  · have h := (read_register_block_spec 0x3100 (some [10, 20])).1 [10, 20] rfl (by decide)
    rw [h]
    decide
  · exact (read_register_block_spec 0x3100 none).2.1 (Or.inl rfl)
  · exact (read_register_block_spec 0x3100 (some [])).2.1 (Or.inr rfl)

/-! ## Sensor value decoding

Embeds `TracerSolarChargerSensor.native_value`, `_format_status_value`
and `_format_bitfield` from the Home Assistant integration, together
with the relevant entries and bit tables of `const.py`. Python dicts of
sensor configuration become a structure with optional fields; the
coordinator data dict becomes an association list; Python floats become
exact rationals and `round(x, 2)` becomes round-half-to-even at two
decimal places. -/

/-- Python `round` to an integer: round-half-to-even. -/
def pyRound (q : ℚ) : ℤ :=
  if Int.fract q = 1/2 then (if ⌊q⌋ % 2 = 0 then ⌊q⌋ else ⌊q⌋ + 1) else round q

/-- Python `round(x, 2)`: round-half-to-even at two decimal places. -/
def round2 (q : ℚ) : ℚ := (pyRound (q * 100) : ℚ) / 100

theorem pyRound_intCast (n : ℤ) : pyRound (n : ℚ) = n := by
  unfold pyRound
  rw [Int.fract_intCast, round_intCast]
  norm_num

theorem round2_eq (q : ℚ) (n : ℤ) (h : q * 100 = (n : ℚ)) :
    round2 q = (n : ℚ) / 100 := by
  unfold round2
  rw [h, pyRound_intCast]

/-- One entry of `SENSOR_TYPES` in `const.py`: the fields `native_value`
reads, with absent dict keys as `none` defaults. -/
structure SensorConfig where
  address : Nat
  scale : Option ℚ := none
  offset : Option ℚ := none
  combine_registers : Bool := false
  high_address : Option Nat := none
  type : Option String := none
  enum_values : List (Nat × String) := []

/-- Python `dict.get` on the coordinator data, modelled over an
association list with unique keys. -/
def dictGet (d : List (Nat × Nat)) (k : Nat) : Option Nat :=
  (d.find? (fun p => p.1 == k)).map (fun p => p.2)

/-- The value of a sensor: a scaled number or a decoded status string
(Python returns `float | str | None`). -/
inductive SensorValue where
  | num (value : ℚ)
  | str (value : String)
  deriving DecidableEq

/-- The combined-register step of `native_value`: when
`combine_registers` is set, read the high word (defaulting to 0) and
form `(high_value << 16) | raw_value`; otherwise keep the raw value. -/
def combined_raw (cfg : SensorConfig) (data : List (Nat × Nat)) (raw0 : Nat) : Nat :=
  if cfg.combine_registers then
    ((match cfg.high_address with
      | some ha => (dictGet data ha).getD 0
      | none => 0) <<< 16) ||| raw0
  else raw0

/-- `TracerSolarChargerSensor._format_bitfield`: collect the labels of
the set bits in table order, join with a comma, default to Normal. -/
def format_bitfield (value : Nat) (bit_definitions : List (Nat × String)) : String :=
  let active_bits := (bit_definitions.filter
    (fun p => value &&& (1 <<< p.1) != 0)).map (fun p => p.2)
  if active_bits = [] then "Normal" else String.intercalate ", " active_bits

/-- `BATTERY_STATUS_BITS` of `const.py`, in insertion order. -/
def BATTERY_STATUS_BITS : List (Nat × String) :=
  [(0, "Normal"), (1, "Over Temperature"), (2, "Low Temperature"),
   (3, "Over Voltage"), (4, "Under Voltage"), (5, "Over Current"),
   (6, "Over Discharge"), (7, "Battery Inner Resistance Abnormal"),
   (8, "Wrong Identification for Rated Voltage")]

/-- `CHARGING_STATUS_BITS` of `const.py`, in insertion order. -/
def CHARGING_STATUS_BITS : List (Nat × String) :=
  [(0, "Charging Deactivated"), (1, "Charging Activated"),
   (2, "MPPT Charging Mode"), (3, "Equalizing Charging Mode"),
   (4, "Boost Charging Mode"), (5, "Floating Charging Mode"),
   (6, "Current Limiting")]

/-- `LOAD_STATUS_BITS` of `const.py`, in insertion order. -/
def LOAD_STATUS_BITS : List (Nat × String) :=
  [(0, "Load Disconnected"), (1, "Load Connected"),
   (2, "Output Over Voltage"), (3, "Boost Over Voltage"),
   (4, "High Voltage Side Short Circuit"), (5, "Input Over Voltage"),
   (6, "Output Over Current"), (7, "Input Over Current")]

/-- `TracerSolarChargerSensor._format_status_value`: dispatch on the
sensor key to the matching bit table, else print the raw value. -/
def format_status_value (sensor_key : String) (raw_value : Nat) : String :=
  if sensor_key = "battery_status" then format_bitfield raw_value BATTERY_STATUS_BITS
  else if sensor_key = "charging_status" then
    format_bitfield raw_value CHARGING_STATUS_BITS
  else if sensor_key = "load_status" then format_bitfield raw_value LOAD_STATUS_BITS
  else toString raw_value

/-- `TracerSolarChargerSensor.native_value`: look up the raw register,
combine registers if configured, dispatch on status/enum type, else
scale, add the offset when present, and round to 2 decimals. -/
def native_value (sensor_key : String) (cfg : SensorConfig) (data : List (Nat × Nat)) :
    Option SensorValue :=
  if data = [] then none
  else
    match dictGet data cfg.address with
    | none => none
    | some raw0 =>
      let raw := combined_raw cfg data raw0
      if cfg.type = some "status" then some (.str (format_status_value sensor_key raw))
      else if cfg.type = some "enum" then
        some (.str (((cfg.enum_values.find? (fun p => p.1 == raw)).map
          (fun p => p.2)).getD ("Unknown (" ++ toString raw ++ ")")))
      else
        let scaled := (raw : ℚ) * cfg.scale.getD 1
        let scaled2 := match cfg.offset with
          | some o => scaled + o
          | none => scaled
        some (.num (round2 scaled2))

/-- The `pv_voltage` entry of `SENSOR_TYPES` (address 0x3100, scale 0.01). -/
def pv_voltage_config : SensorConfig := { address := 0x3100, scale := some (1/100) }

/-- The `battery_temp` entry of `SENSOR_TYPES` (address 0x3110, scale
0.01, offset -273.15). -/
def battery_temp_config : SensorConfig :=
  { address := 0x3110, scale := some (1/100), offset := some (-27315/100) }

/-- The `energy_generated_today` entry of `SENSOR_TYPES` (address
0x3306, scale 0.01, combined with high word at 0x3307). -/
def energy_generated_today_config : SensorConfig :=
  { address := 0x3306, scale := some (1/100), combine_registers := true,
    high_address := some 0x3307 }

/-- C5 (amended): for every parameter whose type is not status and not
enum and that does not combine registers, the decoded value is the raw
register value times the scale (default 1), plus the offset when one is
declared, rounded to 2 decimal places. The spec example raw 30000 at
scale 0.01 with offset -273.15 decodes to 26.85, not -253.15. -/
theorem native_value_linear (sensor_key : String) (cfg : SensorConfig)
    (data : List (Nat × Nat)) (raw : Nat)
    (hd : data ≠ [])
    (hraw : dictGet data cfg.address = some raw)
    (hcomb : cfg.combine_registers = false)
    (hstatus : cfg.type ≠ some "status")
    (henum : cfg.type ≠ some "enum") :
    native_value sensor_key cfg data
      = some (.num (round2 ((raw : ℚ) * cfg.scale.getD 1 + cfg.offset.getD 0))) := by
  unfold native_value
  rw [if_neg hd, hraw]
  simp only []
  rw [if_neg hstatus, if_neg henum]
  unfold combined_raw
  rw [hcomb]
  simp only [Bool.false_eq_true, if_false]
  cases hoff : cfg.offset with
  | none => simp
  | some o => simp

/-- Witness for C5: raw 2456 at scale 0.01 decodes to 24.56, and raw
30000 at scale 0.01 with offset -273.15 decodes to 26.85. -/
theorem native_value_linear_witness :
    native_value "pv_voltage" pv_voltage_config [(0x3100, 2456)]
      = some (.num (2456/100))
    ∧ native_value "battery_temp" battery_temp_config [(0x3110, 30000)]
      = some (.num (2685/100)) := by
  constructor
  · have h := native_value_linear "pv_voltage" pv_voltage_config [(0x3100, 2456)]
      2456 (by decide) (by decide) rfl (by decide) (by decide)
    rw [h]
    have h2 : round2 ((614 : ℚ) / 25) = ((2456 : ℤ) : ℚ) / 100 :=
      round2_eq _ 2456 (by norm_num)
    simp only [pv_voltage_config]
    norm_num [h2]
  · have h := native_value_linear "battery_temp" battery_temp_config [(0x3110, 30000)]
      30000 (by decide) (by decide) rfl (by decide) (by decide)
    rw [h]
    have h2 : round2 ((537 : ℚ) / 20) = ((2685 : ℤ) : ℚ) / 100 :=
      round2_eq _ 2685 (by norm_num)
    simp only [battery_temp_config]
    norm_num [h2]

/-- Counterexample for C5 as stated: with the battery temperature
configuration (scale 0.01, offset -273.15), raw 30000 decodes to 26.85,
not to the -253.15 the spec example asserts. -/
theorem native_value_kelvin_counterexample :
    native_value "battery_temp" battery_temp_config [(0x3110, 30000)]
      = some (.num (2685/100))
    ∧ (2685/100 : ℚ) ≠ -25315/100 := by
  constructor
  · have h2 : round2 ((537 : ℚ) / 20) = ((2685 : ℤ) : ℚ) / 100 :=
      round2_eq _ 2685 (by norm_num)
    simp only [native_value, dictGet, battery_temp_config, combined_raw]
    norm_num [h2]
    simp
  · norm_num

theorem shiftLeft16_lor_eq_add (h l : Nat) (hl : l < 65536) :
    (h <<< 16) ||| l = h * 65536 + l := by
  apply Nat.eq_of_testBit_eq
  intro i
  have hrw : h * 65536 + l = 2 ^ 16 * h + l := by ring
  rw [Nat.testBit_lor, Nat.testBit_shiftLeft, hrw,
    Nat.testBit_mul_pow_two_add h (by omega : l < 2 ^ 16) i]
  by_cases hi : i < 16
  · simp [hi, Nat.not_le.mpr hi]
  · have hl16 : l < 2 ^ i := lt_of_lt_of_le (by omega : l < 2 ^ 16)
      (Nat.pow_le_pow_right (by omega) (by omega))
    simp [hi, Nat.le_of_not_lt hi, Nat.testBit_lt_two_pow hl16]

/-- C6: for a parameter configured with a high word register, the value
fed to all later decode steps is exactly the 32-bit combination of the
two 16-bit raw registers, high word shifted left 16 and ORed with the
low word (equivalently high * 65536 + low, below 2^32), before any
scaling or offset; low 0x1234 with high 0x0001 combines to 70196. -/
theorem native_value_combine (sensor_key : String) (cfg : SensorConfig)
    (data : List (Nat × Nat)) (low high ha : Nat)
    (hd : data ≠ [])
    (hcomb : cfg.combine_registers = true)
    (hha : cfg.high_address = some ha)
    (hlow : dictGet data cfg.address = some low)
    (hhigh : dictGet data ha = some high)
    (hlow16 : low < 65536) (hhigh16 : high < 65536) :
    combined_raw cfg data low = (high <<< 16) ||| low
    ∧ (high <<< 16) ||| low = high * 65536 + low
    ∧ (high <<< 16) ||| low < 4294967296
    ∧ (cfg.type ≠ some "status" → cfg.type ≠ some "enum" →
        native_value sensor_key cfg data
          = some (.num (round2 ((((high <<< 16) ||| low : Nat) : ℚ) * cfg.scale.getD 1
              + cfg.offset.getD 0))))
    ∧ ((0x0001 <<< 16) ||| 0x1234) = 70196 := by
  have hcr : combined_raw cfg data low = (high <<< 16) ||| low := by
    unfold combined_raw
    rw [hcomb, hha]
    simp [hhigh]
  have hadd : (high <<< 16) ||| low = high * 65536 + low :=
    shiftLeft16_lor_eq_add high low hlow16
  refine ⟨hcr, hadd, by omega, ?_, by decide⟩
  intro hstatus henum
  unfold native_value
  rw [if_neg hd, hlow]
  simp only []
  rw [if_neg hstatus, if_neg henum, hcr]
  cases hoff : cfg.offset with
  | none => simp
  | some o => simp

/-- Witness for C6: the energy-generated-today sensor combines low
0x1234 with high 0x0001 into 70196 and decodes it at scale 0.01. -/
theorem native_value_combine_witness :
    combined_raw energy_generated_today_config
      [(0x3306, 0x1234), (0x3307, 0x0001)] 0x1234 = 70196
    ∧ native_value "energy_generated_today" energy_generated_today_config
        [(0x3306, 0x1234), (0x3307, 0x0001)]
      = some (.num (70196/100)) := by
  have h := native_value_combine "energy_generated_today"
    energy_generated_today_config [(0x3306, 0x1234), (0x3307, 0x0001)]
    0x1234 0x0001 0x3307 (by decide) rfl rfl (by decide) (by decide)
    (by decide) (by decide)
  constructor
  · rw [h.1]
    decide
  · rw [h.2.2.2.1 (by decide) (by decide)]
    have hval : ((0x0001 <<< 16) ||| 0x1234 : Nat) = 70196 := by decide
    rw [hval]
    have h2 : round2 ((17549 : ℚ) / 25) = ((70196 : ℤ) : ℚ) / 100 :=
      round2_eq _ 70196 (by norm_num)
    simp only [energy_generated_today_config]
    norm_num [h2]

theorem and_shiftLeft_ne_zero (v b : Nat) :
    (v &&& (1 <<< b) != 0) = v.testBit b := by
  rw [Nat.one_shiftLeft, Nat.and_two_pow]
  cases h : v.testBit b
  · simp
  · have h2 : (2:Nat) ^ b ≠ 0 := by positivity
    simp [h2]

/-- C7: decoding a raw value against a bitfield table yields exactly the
labels of the defined bit positions whose bit is set in the raw value,
in table order, joined by a comma and space, with the literal Normal
when no defined bit is set; the three bit tables list their bit
positions in strictly ascending order, raw 0 decodes to Normal against
the battery table, and raw 5 decodes to the labels of bits 0 and 2. -/
theorem format_bitfield_spec :
    (∀ (tbl : List (Nat × String)) (raw : Nat),
      format_bitfield raw tbl =
        if (tbl.filter (fun p => raw.testBit p.1)).map (fun p => p.2) = [] then
          "Normal"
        else
          String.intercalate ", " ((tbl.filter (fun p => raw.testBit p.1)).map
            (fun p => p.2)))
    ∧ List.Chain' (· < ·) (BATTERY_STATUS_BITS.map (fun p => p.1))
    ∧ List.Chain' (· < ·) (CHARGING_STATUS_BITS.map (fun p => p.1))
    ∧ List.Chain' (· < ·) (LOAD_STATUS_BITS.map (fun p => p.1))
    ∧ format_bitfield 0 BATTERY_STATUS_BITS = "Normal"
    ∧ format_bitfield 5 BATTERY_STATUS_BITS = "Normal, Low Temperature" := by
  refine ⟨?_, by norm_num [BATTERY_STATUS_BITS, List.chain'_cons],
    by norm_num [CHARGING_STATUS_BITS, List.chain'_cons],
    by norm_num [LOAD_STATUS_BITS, List.chain'_cons], by decide, by decide⟩
  intro tbl raw
  unfold format_bitfield
  rw [List.filter_congr (fun p _ => and_shiftLeft_ne_zero raw p.1)]

/-! ## Snapshot assembly

Embeds `DeviceDataManager.create_parameter_reading` and
`create_device_snapshot` from `src/src/models/device_data.py`. The
manager state (device info and the static parameter table) is threaded
explicitly through every call so that any mutation of it would be
visible in the result; `datetime.now()` becomes the explicit `now`
argument. -/

/-- The `device_info` dict set in `DeviceDataManager.__init__`. -/
structure DeviceInfo where
  model : String
  protocol : String
  slave_id : Nat
  baudrate : Nat
  deriving DecidableEq

/-- The decode kind of one register definition (spec section 3: exactly
one of linear, enum and bitfield per definition). -/
inductive DecodeKind where
  | linear (scale : ℚ) (offset : Option ℚ)
  | enum (table : List (Nat × String))
  | bitfield (table : List (Nat × String))
  deriving DecidableEq

/-- One entry of the static register table (spec section 3,
RegisterDefinition). -/
structure RegisterDefinition where
  address : Nat
  is_holding : Bool
  name : String
  description : String
  unit : String
  category : String
  kind : DecodeKind
  deriving DecidableEq

/-- The result dict of `format_value`: with a `name` key for a known
parameter, without one for an unknown address. -/
inductive FormattedData where
  | known (name description : String) (formatted : SensorValue)
      (unit category : String)
  | unknown
  deriving DecidableEq

/-- Modelled from the spec: `parameter_definitions.format_value` is
imported by `device_data.py` but the module is not under src/.
Following spec sections 4.4 and 4.5: look the address and bank up in
the static register table; for a known parameter decode by its kind
(linear scale then optional offset then round to 2 decimals, enum label
with an Unknown default, or bitfield join) and return its metadata; an
unmatched address yields a result without a name. -/
def format_value (table : List RegisterDefinition) (address raw_value : Nat)
    (hold : Bool) : FormattedData :=
  match table.find? (fun d => d.address == address && d.is_holding == hold) with
  | none => .unknown
  | some d =>
    .known d.name d.description
      (match d.kind with
       | .linear scale offset => .num (round2 ((raw_value : ℚ) * scale + offset.getD 0))
       | .enum t => .str (((t.find? (fun p => p.1 == raw_value)).map
           (fun p => p.2)).getD ("Unknown (" ++ toString raw_value ++ ")"))
       | .bitfield t => .str (format_bitfield raw_value t))
      d.unit d.category

/-- The `ParameterReading` dataclass of `device_data.py`. -/
structure ParameterReading where
  address : Nat
  name : String
  description : String
  raw_value : Nat
  formatted_value : SensorValue
  unit : String
  category : String
  timestamp : Nat
  deriving DecidableEq

/-- One lowercase hex digit. -/
def hexDigit (n : Nat) : Char :=
  if n < 10 then Char.ofNat (48 + n) else Char.ofNat (87 + n)

/-- Four-digit lowercase hex rendering, as Python formats `04x`. -/
def hex4 (n : Nat) : String :=
  String.mk [hexDigit (n / 4096 % 16), hexDigit (n / 256 % 16),
    hexDigit (n / 16 % 16), hexDigit (n % 16)]

/-- The mutable state of a `DeviceDataManager` instance: its device
info and the parameter table loaded at construction. -/
structure DeviceDataManager where
  device_info : DeviceInfo
  all_parameters : List RegisterDefinition
  deriving DecidableEq

/-- `DeviceDataManager.create_parameter_reading`: format the raw value
and build a reading, falling back to an unknown-parameter reading with
the raw value passed through when the address is not in the table.
Returns the (unchanged) manager state alongside the reading. -/
def create_parameter_reading (mgr : DeviceDataManager) (address raw_value : Nat)
    (hold : Bool) (now : Nat) : ParameterReading × DeviceDataManager :=
  match format_value mgr.all_parameters address raw_value hold with
  | .unknown =>
    (⟨address, "unknown_0x" ++ hex4 address, "Unknown register", raw_value,
      .num (raw_value : ℚ), "", "unknown", now⟩, mgr)
  | .known name description formatted unit category =>
    (⟨address, name, description, raw_value, formatted, unit, category, now⟩, mgr)

/-- The `DeviceSnapshot` dataclass. -/
structure DeviceSnapshot where
  timestamp : Nat
  device_info : DeviceInfo
  parameters : List ParameterReading
  deriving DecidableEq

/-- One iteration of the loops in `create_device_snapshot`: append the
reading for one (address, value) pair, threading the manager state. -/
def snapshot_step (hold : Bool) (now : Nat)
    (acc : List ParameterReading × DeviceDataManager) (p : Nat × Nat) :
    List ParameterReading × DeviceDataManager :=
  let r := create_parameter_reading acc.2 p.1 p.2 hold now
  (acc.1 ++ [r.1], r.2)

/-- `DeviceDataManager.create_device_snapshot`: readings for the input
registers in insertion order, then for the holding registers when
given, wrapped with the device info and the capture instant. -/
def create_device_snapshot (mgr : DeviceDataManager)
    (register_data : List (Nat × Nat)) (holding_data : Option (List (Nat × Nat)))
    (now : Nat) : DeviceSnapshot × DeviceDataManager :=
  let acc1 := register_data.foldl (snapshot_step false now) ([], mgr)
  let acc2 := match holding_data with
    | some hd => hd.foldl (snapshot_step true now) acc1
    | none => acc1
  (⟨now, acc2.2.device_info, acc2.1⟩, acc2.2)

theorem create_parameter_reading_state (mgr : DeviceDataManager)
    (address raw_value : Nat) (hold : Bool) (now : Nat) :
    (create_parameter_reading mgr address raw_value hold now).2 = mgr := by
  unfold create_parameter_reading
  split <;> rfl

theorem foldl_snapshot_step_state (hold : Bool) (now : Nat)
    (l : List (Nat × Nat)) (acc : List ParameterReading × DeviceDataManager) :
    (l.foldl (snapshot_step hold now) acc).2 = acc.2 := by
  induction l generalizing acc with
  | nil => rfl
  | cons p t ih =>
    rw [List.foldl_cons, ih (snapshot_step hold now acc p)]
    unfold snapshot_step
    simp only []
    exact create_parameter_reading_state acc.2 p.1 p.2 hold now

theorem create_device_snapshot_state (mgr : DeviceDataManager)
    (register_data : List (Nat × Nat)) (holding_data : Option (List (Nat × Nat)))
    (now : Nat) :
    (create_device_snapshot mgr register_data holding_data now).2 = mgr := by
  unfold create_device_snapshot
  cases holding_data <;> simp [foldl_snapshot_step_state]

/-- C8: snapshot creation does not change the manager state, and
running it twice on the same register data (threading the state of the
first run into the second) yields equal snapshots whose parameter
readings agree in every field. -/
theorem create_device_snapshot_idempotent (mgr : DeviceDataManager)
    (register_data : List (Nat × Nat)) (holding_data : Option (List (Nat × Nat)))
    (now : Nat) :
    (create_device_snapshot mgr register_data holding_data now).2 = mgr
    ∧ (create_device_snapshot
        (create_device_snapshot mgr register_data holding_data now).2
        register_data holding_data now).1
      = (create_device_snapshot mgr register_data holding_data now).1
    ∧ List.Forall₂ (fun p q : ParameterReading =>
        p.address = q.address ∧ p.name = q.name ∧ p.description = q.description
          ∧ p.raw_value = q.raw_value ∧ p.formatted_value = q.formatted_value
          ∧ p.unit = q.unit ∧ p.category = q.category ∧ p.timestamp = q.timestamp)
      (create_device_snapshot mgr register_data holding_data now).1.parameters
      (create_device_snapshot
        (create_device_snapshot mgr register_data holding_data now).2
        register_data holding_data now).1.parameters := by
  have hstate := create_device_snapshot_state mgr register_data holding_data now
  refine ⟨hstate, by rw [hstate], ?_⟩
  rw [hstate, List.forall₂_same]
  intro a _
  exact ⟨rfl, rfl, rfl, rfl, rfl, rfl, rfl, rfl⟩

/-! ## Validated write path

Embeds `SolarChargerCLI.cmd_write` from `src/src/main.py` as a function
from the external outcomes (connection success, device probe response,
flags, user confirmation, write acknowledgement) to an exit code and
the trace of Modbus client calls it makes, in order. Each traced call
writes a request frame to the serial port: `connect_device` runs
`test_connection`, which issues a read of input register 0x3104 before
any validation happens; `read_single_register` and
`write_single_register` issue the corresponding frames. -/

/-- A writable parameter definition as used by `cmd_write` (spec
sections 3 and 4.6): address, scale, optional min/max bounds for
numeric parameters, label-to-raw list for enum parameters. -/
structure WritableParameter where
  address : Nat
  scale : ℚ := 1
  min_value : Option ℚ := none
  max_value : Option ℚ := none
  valid_values : List (String × Nat) := []
  warning_message : Option String := none
  deriving DecidableEq

/-- The outcome of validating a user-supplied value. -/
inductive ValidationResult where
  | ok (raw : Nat)
  | not_a_number
  | out_of_range
  | unknown_enum_label
  deriving DecidableEq

/-- Modelled from the spec: `writable_parameters` (providing
`validate_value` on parameter definitions) is imported by `main.py` but
the module is not under src/. Following spec section 4.6: an enum
parameter's input must match one declared label; a numeric input that
fails to parse (modelled by `parsed = none`) is NotANumber, one outside
the declared inclusive bounds is OutOfRange, and a valid one converts
to the raw integer by rounding the value divided by the scale. -/
def validate_value (p : WritableParameter) (parsed : Option ℚ)
    ( raw_input : String) : ValidationResult :=
  if p.valid_values ≠ [] then
    match p.valid_values.find? (fun q => q.1 == raw_input) with
    | some q => .ok q.2
    | none => .unknown_enum_label
  else
    match parsed with
    | none => .not_a_number
    | some v =>
      if p.min_value.elim false (fun m => decide (v < m))
          || p.max_value.elim false (fun m => decide (m < v)) then
        .out_of_range
      else .ok (pyRound (v / p.scale)).toNat

/-- One Modbus client call made by the write path; each sends one
request frame over the serial line (see `client_op_frame`). -/
inductive ClientOp where
  | probe_read (address : Nat)
  | register_read (address : Nat)
  | register_write (address value : Nat)
  deriving DecidableEq

/-- The request frame each client call writes to the serial port:
`test_connection` reads one input register (function 0x04),
`read_single_register` with `is_holding=True` reads one holding
register (function 0x03), `write_single_register` sends the 0x06
frame. -/
def client_op_frame (slave_id : Nat) : ClientOp → List Nat
  | .probe_read address => create_modbus_command slave_id 0x04 address 1
  | .register_read address => create_modbus_command slave_id 0x03 address 1
  | .register_write address value =>
      write_single_register_frame slave_id address value

/-- The external outcomes `cmd_write` branches on: serial port opens,
device answers the probe, dry-run and force flags, interactive
confirmation, write acknowledged. -/
structure CmdWriteContext where
  connect_ok : Bool
  probe_ok : Bool
  dry_run : Bool
  force : Bool
  confirm_yes : Bool
  write_ok : Bool
  deriving DecidableEq

/-- `SolarChargerCLI.cmd_write`: connect (which probes register 0x3104
through `test_connection`), look the parameter up, validate the value,
honour dry-run and confirmation, read the current value, write, and on
acknowledged writes read back to verify. Returns the exit code and the
ordered trace of Modbus client calls. -/
def cmd_write_trace (param : Option WritableParameter) (parsed : Option ℚ)
    ( raw_input : String) (ctx : CmdWriteContext) : Nat × List ClientOp :=
  if ctx.connect_ok = false then (1, [])
  else if ctx.probe_ok = false then (1, [.probe_read 0x3104])
  else
    match param with
    | none => (1, [.probe_read 0x3104])
    | some p =>
      match validate_value p parsed raw_input with
      | .ok raw =>
        if ctx.dry_run then (0, [.probe_read 0x3104])
        else if !ctx.force && !ctx.confirm_yes then (0, [.probe_read 0x3104])
        else
          let base := [ClientOp.probe_read 0x3104, .register_read p.address,
            .register_write p.address raw]
          if ctx.write_ok then (0, base ++ [.register_read p.address])
          else (1, base)
      | _ => (1, [.probe_read 0x3104])

/-- C9 (amended): when validation fails, `cmd_write` returns failure
before any register read or write is issued: the only Modbus traffic is
the probe read of 0x3104 performed while connecting, and in particular
no register write call ever occurs for an invalid input. -/
theorem cmd_write_invalid_no_write (param : WritableParameter) (parsed : Option ℚ)
    ( raw_input : String) (ctx : CmdWriteContext)
    (hc : ctx.connect_ok = true) (hp : ctx.probe_ok = true)
    (hinv : validate_value param parsed raw_input = .not_a_number
      ∨ validate_value param parsed raw_input = .out_of_range
      ∨ validate_value param parsed raw_input = .unknown_enum_label) :
    (cmd_write_trace (some param) parsed raw_input ctx).1 = 1
    ∧ (cmd_write_trace (some param) parsed raw_input ctx).2 = [.probe_read 0x3104]
    ∧ ∀ address value, ClientOp.register_write address value
        ∉ (cmd_write_trace (some param) parsed raw_input ctx).2 := by
  have hmain : cmd_write_trace (some param) parsed raw_input ctx
      = (1, [.probe_read 0x3104]) := by
    unfold cmd_write_trace
    rw [hc, hp]
    simp only [Bool.true_eq_false, if_false]
    rcases hinv with h | h | h <;> rw [h]
  rw [hmain]
  refine ⟨rfl, rfl, ?_⟩
  intro address value hmem
  simp at hmem

/-- The `battery_capacity` writable parameter (holding register 0x9001,
scale 1, bounds 1..9999 Ah) used as the concrete invalid-write input. -/
def battery_capacity_param : WritableParameter :=
  { address := 0x9001, scale := 1, min_value := some 1, max_value := some 9999 }

/-- Witness for C9: writing the unparseable value abc to
battery_capacity fails validation, exits 1, and issues no register
write; the trace is exactly the connection probe. -/
theorem cmd_write_invalid_no_write_witness :
    (cmd_write_trace (some battery_capacity_param) none "abc"
        ⟨true, true, false, false, false, true⟩).1 = 1
    ∧ (cmd_write_trace (some battery_capacity_param) none "abc"
        ⟨true, true, false, false, false, true⟩).2 = [.probe_read 0x3104]
    ∧ ∀ address value, ClientOp.register_write address value
        ∉ (cmd_write_trace (some battery_capacity_param) none "abc"
            ⟨true, true, false, false, false, true⟩).2 :=
  cmd_write_invalid_no_write battery_capacity_param none "abc"
    ⟨true, true, false, false, false, true⟩ rfl rfl (Or.inl (by decide))

/-- Counterexample for C9 as stated: for the invalid input abc the
write path does perform a serial write before validation - the
connection probe sends a read-request frame for register 0x3104 - so
the trace is not free of serial writes, only of register writes. -/
theorem cmd_write_probe_counterexample :
    validate_value battery_capacity_param none "abc" = .not_a_number
    ∧ (cmd_write_trace (some battery_capacity_param) none "abc"
        ⟨true, true, false, false, false, true⟩).2
      = [.probe_read 0x3104]
    ∧ ((cmd_write_trace (some battery_capacity_param) none "abc"
        ⟨true, true, false, false, false, true⟩).2.map
          (client_op_frame 1)) ≠ []
    ∧ client_op_frame 1 (.probe_read 0x3104) ≠ [] := by
  refine ⟨by decide, by decide, by decide, by decide⟩
